import Mathlib

/-!
# Verification of the hocuspocus proxy policy engine

A shallow embedding, in Lean 4, of the access-decision engine of the
mitmproxy-based filtering proxy: the domain-access evaluator
(`src/application/use_cases/check_domain_access.py`), the YouTube
evaluator (`check_youtube_access.py`), the geofence state machine
(`verify_location_restrictions.py`), and the request orchestrator plus
captive-portal detector (`src/proxy_handler.py`).  Pure Python functions
become Lean functions; stateful handlers become explicit state-passing
functions; external collaborators (the YouTube Data API, the public-suffix
extractor, the floating-point Haversine distance) are parameters of the
functions that use them.
-/

/-! ## Python string primitives used by the source -/

/-- `leadsWith n h`: the character list `n` is an initial segment of `h`. -/
def leadsWith : List Char → List Char → Bool
  | [], _ => true
  | _ :: _, [] => false
  | a :: as, b :: bs => a = b && leadsWith as bs

/-- `hasSegment n h`: `n` occurs contiguously somewhere inside `h`. -/
def hasSegment (n : List Char) : List Char → Bool
  | [] => n.isEmpty
  | b :: bs => leadsWith n (b :: bs) || hasSegment n bs

/-- Python's `needle in hay` substring test. -/
def pyIn (needle hay : String) : Bool :=
  hasSegment needle.toList hay.toList

/-- Python's `s.startswith(p)`. -/
def pyStartsWith (p s : String) : Bool :=
  leadsWith p.toList s.toList

/-- Characters before the first occurrence of `c`: `s.split(c)[0]`. -/
def listTakeUntil (c : Char) : List Char → List Char
  | [] => []
  | x :: xs => if x = c then [] else x :: listTakeUntil c xs

/-- Python's `s.split('?')[0]` specialised to one separator character. -/
def pySplitHead (c : Char) (s : String) : String :=
  ⟨listTakeUntil c s.toList⟩

/-- Python's `s.strip('/')`: drop the character from both ends. -/
def pyStripChar (c : Char) (s : String) : String :=
  ⟨((s.toList.dropWhile (· = c)).reverse.dropWhile (· = c)).reverse⟩

/-- Add an element to a Python `set` modelled as a duplicate-free list
(`set.add`): a no-op when already present. -/
def setAdd (l : List String) (x : String) : List String :=
  if x ∈ l then l else x :: l

/-! ## `domain/value_objects.py` -/

/-- `BlockReason` enum from `domain/value_objects.py`. -/
inductive BlockReason
  | NOT_WHITELISTED
  | YOUTUBE_CHANNEL_BLOCKED
  | LOCATION_RESTRICTED
  | ESSENTIAL_ALWAYS_ALLOWED
  | CAPTIVE_PORTAL
deriving DecidableEq, Repr

/-- `AccessDecision` from `domain/value_objects.py`.  Every construction
site in the embedded code supplies a message, so `message` is a plain
string here. -/
structure AccessDecision where
  allowed : Bool
  reason : BlockReason
  message : String
deriving DecidableEq, Repr

/-- `AccessDecision.allow`. -/
def AccessDecision.allow (reason : BlockReason) (message : String) : AccessDecision :=
  { allowed := true, reason := reason, message := message }

/-- `AccessDecision.deny`. -/
def AccessDecision.deny (reason : BlockReason) (message : String) : AccessDecision :=
  { allowed := false, reason := reason, message := message }

/-! ## `domain/entities.py`: `Domain` -/

/-- `Domain` dataclass from `domain/entities.py`. -/
structure Domain where
  domain : String
  enabled : Bool
deriving DecidableEq, Repr

/-- `Domain.matches`: substring containment of the configured domain in
the host (`self.domain in host`). -/
def Domain.matches (d : Domain) (host : String) : Bool :=
  pyIn d.domain host

/-! ## `adapters/repositories/postgres_domain_repository.py`

The `allowed_hosts` table is modelled as a list of rows `(domain, enabled)`;
`get_allowed_domains` runs `SELECT domain FROM allowed_hosts WHERE
enabled = true` and wraps each row in a `Domain` with `enabled=True`. -/

/-- A row of the `allowed_hosts` table. -/
structure DomainRow where
  domain : String
  enabled : Bool
deriving DecidableEq, Repr

/-- `PostgresDomainRepository.get_allowed_domains` on a reachable store. -/
def get_allowed_domains (rows : List DomainRow) : List Domain :=
  (rows.filter (·.enabled)).map (fun r => { domain := r.domain, enabled := true })

/-! ## `application/use_cases/check_domain_access.py` -/

/-- `CheckDomainAccess.ESSENTIAL_HOSTS`. -/
def ESSENTIAL_HOSTS : List String :=
  ["apple.com", "icloud.com", "icloud-content.com", "mzstatic.com"]

/-- `CheckDomainAccess.CAPTIVE_PORTAL_HOSTS`. -/
def CAPTIVE_PORTAL_HOSTS : List String :=
  [ "captive.apple.com"
  , "connectivitycheck.gstatic.com"
  , "clients3.google.com"
  , "msftconnecttest.com"
  , "detectportal.firefox.com"
  , "nmcheck.gnome.org"
  , "network-test.debian.org" ]

/-- `CheckDomainAccess.execute(host, base_domain)`.  `rows` is the state of
the domain repository's `allowed_hosts` table, `auto` the use case's
`_auto_whitelisted_hosts` set. -/
def CheckDomainAccess.execute (rows : List DomainRow) (auto : List String)
    (host base_domain : String) : AccessDecision :=
  if CAPTIVE_PORTAL_HOSTS.any (fun portal_host => pyIn portal_host host) then
    AccessDecision.allow .CAPTIVE_PORTAL ("Captive portal detection URL: " ++ host)
  else if base_domain ∈ auto ∧ base_domain ≠ "youtube.com" then
    AccessDecision.allow .CAPTIVE_PORTAL ("Auto-detected captive portal: " ++ base_domain)
  else if base_domain ∈ ESSENTIAL_HOSTS then
    AccessDecision.allow .ESSENTIAL_ALWAYS_ALLOWED ("Essential host: " ++ base_domain)
  else if (get_allowed_domains rows).any
      (fun d => d.matches host || d.matches base_domain) then
    AccessDecision.allow .NOT_WHITELISTED ("Whitelisted domain: " ++ host)
  else
    AccessDecision.deny .NOT_WHITELISTED ("Domain not whitelisted: " ++ base_domain)

example :
    (CheckDomainAccess.execute [⟨"amazon.com", true⟩] [] "www.amazon.com" "amazon.com").allowed
      = true := by decide

example :
    CheckDomainAccess.execute [] [] "www.foo.com" "foo.com"
      = AccessDecision.deny .NOT_WHITELISTED "Domain not whitelisted: foo.com" := by decide

example :
    (CheckDomainAccess.execute [] ["youtube.com"] "www.youtube.com" "youtube.com").allowed
      = false := by decide

/-- `CheckDomainAccess.add_auto_whitelisted_host`: `set.add` on the
auto-whitelist. -/
def add_auto_whitelisted_host (auto : List String) (domain : String) : List String :=
  setAdd auto domain

/-! ## `application/use_cases/check_youtube_access.py`

URLs enter the evaluator as strings and are taken apart with
`urllib.parse.urlparse` / `parse_qs`, which are external library calls.  A
URL is therefore embedded in already-parsed form: the value lists of the
`v` and `docid` query parameters (`parse_qs` drops blank values, so each
listed value is what `query_params[k]` holds), the parsed path, and the raw
URL text (used by the `'youtu.be/' in url` test and by the orchestrator's
`'youtube.com' in referer` test). -/

/-- A URL together with its `urlparse`/`parse_qs` decomposition. -/
structure ParsedURL where
  /-- `parse_qs(parsed.query)['v']` (empty list when the key is absent). -/
  vParams : List String
  /-- `parse_qs(parsed.query)['docid']` (empty list when absent). -/
  docidParams : List String
  /-- `urlparse(url).path`. -/
  path : String
  /-- The raw URL string. -/
  raw : String
deriving DecidableEq, Repr

/-- `YouTubeChannel` dataclass from `domain/entities.py`. -/
structure YouTubeChannel where
  channel_id : String
  channel_name : String
  enabled : Bool
deriving DecidableEq, Repr

/-- `CheckYouTubeAccess._extract_video_id`: prefer the `v` parameter
(truncating a malformed value at a literal `?`), then `docid`, then a
`youtu.be/<id>` path; `none` models Python `None`. -/
def CheckYouTubeAccess.extract_video_id (u : ParsedURL) : Option String :=
  match u.vParams with
  | video_id :: _ =>
      if pyIn "?" video_id then some (pySplitHead '?' video_id) else some video_id
  | [] =>
    match u.docidParams with
    | video_id :: _ => some video_id
    | [] =>
        if pyIn "youtu.be/" u.raw then some (pyStripChar '/' u.path) else none

/-- Result of `CheckYouTubeAccess._get_channel_id`: the returned channel id,
the cache after the call, and whether the external API client was invoked. -/
structure ChannelLookup where
  channel_id : Option String
  cache : List (String × String)
  invoked_api : Bool
deriving DecidableEq, Repr

/-- `CheckYouTubeAccess._get_channel_id(video_id)`: consult the
`_video_to_channel_cache` first; on a miss call the API client (`api`
models `YouTubeAPIClient.get_channel_id_from_video`, which returns `None`
on any failure) and memoize only a successful result. -/
def CheckYouTubeAccess.get_channel_id (cache : List (String × String))
    (api : String → Option String) (video_id : String) : ChannelLookup :=
  match cache.lookup video_id with
  | some cid => { channel_id := some cid, cache := cache, invoked_api := false }
  | none =>
    match api video_id with
    | some cid =>
        { channel_id := some cid
        , cache := (video_id, cid) :: cache
        , invoked_api := true }
    | none => { channel_id := none, cache := cache, invoked_api := true }

/-- Python truthiness of the `Optional[str]` returned by
`_extract_video_id`: `None` and `""` are falsy. -/
def pyTruthyStr : Option String → Bool
  | none => false
  | some s => s ≠ ""

/-- `CheckYouTubeAccess.execute(url)`.  `channels` is the channel
repository's `get_allowed_channels()` result, `cache` the
`_video_to_channel_cache`; the returned pair is the decision and the cache
after the call. -/
def CheckYouTubeAccess.execute (channels : List YouTubeChannel)
    (cache : List (String × String)) (api : String → Option String)
    (u : ParsedURL) : AccessDecision × List (String × String) :=
  let video_id := CheckYouTubeAccess.extract_video_id u
  if ¬ pyTruthyStr video_id then
    (AccessDecision.allow .NOT_WHITELISTED "Not a YouTube video URL", cache)
  else
    match video_id with
    | none => (AccessDecision.allow .NOT_WHITELISTED "Not a YouTube video URL", cache)
    | some vid =>
      let lk := CheckYouTubeAccess.get_channel_id cache api vid
      match lk.channel_id with
      | none =>
          (AccessDecision.deny .YOUTUBE_CHANNEL_BLOCKED
            ("Could not verify channel for video " ++ vid), lk.cache)
      | some cid =>
        if (channels.map (·.channel_id)).contains cid then
          (AccessDecision.allow .YOUTUBE_CHANNEL_BLOCKED
            ("YouTube channel " ++ cid ++ " is whitelisted"), lk.cache)
        else
          (AccessDecision.deny .YOUTUBE_CHANNEL_BLOCKED
            ("YouTube channel " ++ cid ++ " not whitelisted"), lk.cache)

/-- `CheckYouTubeAccess.is_enabled`: the channel whitelist is non-empty. -/
def CheckYouTubeAccess.is_enabled (channels : List YouTubeChannel) : Bool :=
  channels.length > 0

example :
    CheckYouTubeAccess.extract_video_id
      { vParams := ["LIhkYiYLON0?v=LIhkYiYLON0"], docidParams := [], path := "/watch"
      , raw := "https://www.youtube.com/watch?v=LIhkYiYLON0?v=LIhkYiYLON0" }
      = some "LIhkYiYLON0" := by decide

example :
    (CheckYouTubeAccess.execute [⟨"UCabc", "c", true⟩] [] (fun _ => none)
      { vParams := [], docidParams := [], path := "/", raw := "https://www.youtube.com/" }).1
      = AccessDecision.allow .NOT_WHITELISTED "Not a YouTube video URL" := by decide

example :
    (CheckYouTubeAccess.execute [⟨"UCabc", "c", true⟩] []
        (fun v => if v = "v1" then some "UCabc" else none)
      { vParams := ["v1"], docidParams := [], path := "/watch"
      , raw := "https://www.youtube.com/watch?v=v1" }).1.allowed = true := by decide

/-! ## `domain/value_objects.py`: `GPSCoordinates`, and
`domain/entities.py`: `BlockedZone`

Coordinates are embedded as rationals.  The Haversine formula itself runs
on IEEE floating point through `math.sin`/`cos`/`atan2`/`sqrt`; the
geofence logic only consumes the resulting distance, so `is_within_zone`
and everything above it are parameterised by the distance function `dist`
(of which the concrete float Haversine is one instance). -/

/-- `GPSCoordinates` value object (range validation happens at
construction, before any code modelled here runs). -/
structure GPSCoordinates where
  latitude : ℚ
  longitude : ℚ
deriving DecidableEq, Repr

/-- The `BlockedZone` dataclass exactly as declared in
`domain/entities.py`: fields `coordinates`, `radius_meters`, `name` —
and no `id` field. -/
structure BlockedZone where
  coordinates : GPSCoordinates
  radius_meters : ℚ
  name : String
deriving DecidableEq, Repr

/-- The field (attribute/keyword) names the `BlockedZone` dataclass
declares; its generated `__init__` accepts exactly these keywords, and
attribute access succeeds exactly on these names. -/
def BlockedZone.fieldNames : List String :=
  ["coordinates", "radius_meters", "name"]

/-- `BlockedZone.is_within_zone(location)`: `(distance <= radius_meters,
distance)` where `distance = _calculate_distance(location)` (the Haversine
distance, supplied as `dist`). -/
def BlockedZone.is_within_zone (dist : GPSCoordinates → GPSCoordinates → ℚ)
    (z : BlockedZone) (location : GPSCoordinates) : Bool × ℚ :=
  let distance := dist z.coordinates location
  (decide (distance ≤ z.radius_meters), distance)

/-! ## `adapters/repositories/postgres_location_repository.py`:
`get_blocked_zones` and `get_location_whitelist`

`get_blocked_zones` builds each zone with
`BlockedZone(id=row['id'], coordinates=..., radius_meters=..., name=...)`.
Keyword-argument construction of a dataclass is modelled explicitly: it
fails (Python `TypeError`) when a supplied keyword is not a declared
field.  The surrounding `except Exception` of `get_blocked_zones` turns
any such failure into the fallback result `[]`. -/

/-- A dataclass call site accepts iff every supplied keyword is a declared
field and every declared (default-less) field is supplied. -/
def dataclassCallOk (declared supplied : List String) : Bool :=
  supplied.all (fun k => declared.contains k)
    && declared.all (fun k => supplied.contains k)

/-- The keywords `PostgresLocationRepository.get_blocked_zones` supplies to
the `BlockedZone` constructor. -/
def get_blocked_zones_keywords : List String :=
  ["id", "coordinates", "radius_meters", "name"]

/-- A row of the `blocked_locations` table (columns selected by
`get_blocked_zones`). -/
structure ZoneRow where
  id : Int
  name : String
  latitude : ℚ
  longitude : ℚ
  radius_meters : ℚ
deriving DecidableEq, Repr

/-- `PostgresLocationRepository.get_blocked_zones` on a reachable store:
constructs a `BlockedZone` per row with keywords
`get_blocked_zones_keywords`; a construction failure raises and the
`except` clause returns `[]`. -/
def PostgresLocationRepository.get_blocked_zones (rows : List ZoneRow) : List BlockedZone :=
  let build : ZoneRow → Option BlockedZone := fun r =>
    if dataclassCallOk BlockedZone.fieldNames get_blocked_zones_keywords then
      some { coordinates := { latitude := r.latitude, longitude := r.longitude }
           , radius_meters := r.radius_meters
           , name := r.name }
    else none
  match rows.mapM build with
  | some zones => zones
  | none => []

/-! ## `application/use_cases/verify_location_restrictions.py` -/

/-- The mutable state of `VerifyLocationRestrictions`. -/
structure VerifyLocationRestrictions where
  blocked_zones : List BlockedZone
  currently_at_blocked_location : Bool
  current_blocked_zone : Option BlockedZone
  last_distance : Option ℚ
deriving DecidableEq, Repr

/-- The `for zone in self._blocked_zones` loop of
`VerifyLocationRestrictions.execute`: first zone whose `is_within_zone`
holds wins; a fall-through resets the blocked-location state.  `fmt`
models Python's `f"{distance:.0f}"` rendering of the distance. -/
def VerifyLocationRestrictions.executeLoop (dist : GPSCoordinates → GPSCoordinates → ℚ)
    (fmt : ℚ → String) (st : VerifyLocationRestrictions) (coordinates : GPSCoordinates) :
    List BlockedZone → VerifyLocationRestrictions × AccessDecision
  | [] =>
      ({ st with currently_at_blocked_location := false
               , current_blocked_zone := none
               , last_distance := none },
       AccessDecision.allow .LOCATION_RESTRICTED "Not at blocked location")
  | zone :: rest =>
      let r := zone.is_within_zone dist coordinates
      if r.1 then
        ({ st with currently_at_blocked_location := true
                 , current_blocked_zone := some zone
                 , last_distance := some r.2 },
         AccessDecision.deny .LOCATION_RESTRICTED
           ("At blocked location: " ++ zone.name ++ " (" ++ fmt r.2 ++ "m from center)"))
      else
        VerifyLocationRestrictions.executeLoop dist fmt st coordinates rest

/-- `VerifyLocationRestrictions.execute(coordinates)`. -/
def VerifyLocationRestrictions.execute (dist : GPSCoordinates → GPSCoordinates → ℚ)
    (fmt : ℚ → String) (st : VerifyLocationRestrictions) (coordinates : GPSCoordinates) :
    VerifyLocationRestrictions × AccessDecision :=
  VerifyLocationRestrictions.executeLoop dist fmt st coordinates st.blocked_zones

/-- `VerifyLocationRestrictions.is_blocked`. -/
def VerifyLocationRestrictions.is_blocked (st : VerifyLocationRestrictions) : Bool :=
  st.currently_at_blocked_location

/-- `VerifyLocationRestrictions.blocked_zone_name`. -/
def VerifyLocationRestrictions.blocked_zone_name (st : VerifyLocationRestrictions) : Option String :=
  st.current_blocked_zone.map (·.name)

/-- `VerifyLocationRestrictions.blocked_zone_id` reads attribute `"id"` of
the current zone; on the `BlockedZone` dataclass as declared this is an
`AttributeError`, rendered here as attribute lookup over the declared
field names. -/
def VerifyLocationRestrictions.blocked_zone_id_attribute_exists
    (st : VerifyLocationRestrictions) : Bool :=
  match st.current_blocked_zone with
  | some _ => BlockedZone.fieldNames.contains "id"
  | none => true

/-- `VerifyLocationRestrictions.blocked_zone_id` as executed:
`self._current_blocked_zone.id if self._current_blocked_zone else None`.
The truthy branch performs a Python attribute read of `id` on the current
zone; attribute resolution goes through the dataclass's declared fields
(`BlockedZone.fieldNames`).  Were an `id` field declared, its stored value
would be returned — but neither the Python dataclass nor its Lean mirror
has one, so that branch is provably dead and the read raises
`AttributeError`.  `Except.error` is an exception propagating to the
caller (nothing in `request`'s path catches it). -/
def VerifyLocationRestrictions.blocked_zone_id_read
    (current_blocked_zone : Option BlockedZone) : Except String (Option Int) :=
  match current_blocked_zone with
  | none => Except.ok none
  | some _ =>
      if h : "id" ∈ BlockedZone.fieldNames then absurd h (by decide)
      else Except.error "AttributeError: 'BlockedZone' object has no attribute 'id'"

/-! ## `src/proxy_handler.py`: the request orchestrator

`ProxyHandler.request` dispatches between the blocked-location flow and
the normal flow.  The state gathers the handler's own mutable attributes
(`_approved_video_ids`, `redirect_tracker`), the injected use cases'
mutable state (auto-whitelist, video→channel cache), the repository
tables, and the geofence mode exposed by `verify_location`
(`is_blocked`, `blocked_zone_id`, modelled per its interface; see the
`BlockedZone` id discussion above).  `zone_whitelist` models
`location_repository.get_location_whitelist`, fetched per call. -/

/-- The state read and written by one `ProxyHandler.request` call. -/
structure ProxyState where
  /-- `verify_location.is_blocked`. -/
  verify_is_blocked : Bool
  /-- `verify_location._current_blocked_zone`, the state behind the
  `blocked_zone_name` and `blocked_zone_id` properties. -/
  verify_current_blocked_zone : Option BlockedZone
  /-- The domain repository's `allowed_hosts` table. -/
  domainRows : List DomainRow
  /-- `CheckDomainAccess._auto_whitelisted_hosts`. -/
  auto_whitelisted_hosts : List String
  /-- `location_repository.get_location_whitelist(zone_id)`. -/
  zone_whitelist : Int → List String
  /-- The channel repository's `get_allowed_channels()` result. -/
  channels : List YouTubeChannel
  /-- `CheckYouTubeAccess._video_to_channel_cache`. -/
  video_to_channel_cache : List (String × String)
  /-- `ProxyHandler._approved_video_ids`. -/
  approved_video_ids : List String
  /-- `ProxyHandler.redirect_tracker`. -/
  redirect_tracker : List (String × List String)

/-- An intercepted request, with the hostname/base-domain pair produced by
`_extract_base_domain`, the parsed `pretty_url`, and the parsed `Referer`
header (`headers.get("Referer", "")`; an absent header is the URL with
`raw = ""`). -/
structure Request where
  full_hostname : String
  base_domain : String
  url : ParsedURL
  referer : ParsedURL

/-- What `request` does to the flow: forward it untouched, set a 403
response carrying the given rendered block page, or raise an uncaught
exception out of the handler (no response is set at all). -/
inductive ProxyResponse
  | forward
  | domainBlockPage (base_domain : String)
  | youtubeBlockPage
  | locationBlockPage
  | raised (msg : String)
deriving DecidableEq, Repr

/-- `ProxyHandler._handle_blocked_location_flow`: first the
`blocked_zone_name`/`blocked_zone_id` property reads (lines 350-351,
before any check — the id read raises whenever a zone is current, see
`VerifyLocationRestrictions.blocked_zone_id_read`); then essential hosts
by substring containment in the base domain, then the per-zone whitelist
(fetched for the truthy `blocked_zone_id`) by substring containment in
the full hostname or the base domain, then the location block page. -/
def ProxyHandler.handle_blocked_location_flow (st : ProxyState)
    (full_hostname base_domain : String) : Except String ProxyResponse :=
  match VerifyLocationRestrictions.blocked_zone_id_read
      st.verify_current_blocked_zone with
  | Except.error e => Except.error e
  | Except.ok blocked_zone_id =>
    if ESSENTIAL_HOSTS.any (fun essential => pyIn essential base_domain) then
      Except.ok .forward
    else
      let whitelist_allows :=
        match blocked_zone_id with
        | some zid =>
            if zid ≠ 0 then
              (st.zone_whitelist zid).any
                (fun domain => pyIn domain full_hostname || pyIn domain base_domain)
            else false
        | none => false
      if whitelist_allows then Except.ok .forward
      else Except.ok .locationBlockPage

/-- `current_video_id` as computed inline in `ProxyHandler.request`:
`query.get('v', query.get('docid', [None]))[0]`. -/
def currentVideoId (u : ParsedURL) : Option String :=
  match u.vParams with
  | v :: _ => some v
  | [] =>
    match u.docidParams with
    | d :: _ => some d
    | [] => none

/-- The `googlevideo.com` handling at the tail of `ProxyHandler.request`
(the CDN-correlation fallback), including its guard. -/
def ProxyHandler.googlevideo_step (api : String → Option String)
    (st : ProxyState) (rq : Request) : ProxyState × ProxyResponse :=
  if CheckYouTubeAccess.is_enabled st.channels
      && pyIn "googlevideo.com" rq.full_hostname then
    if rq.referer.raw ≠ "" ∧ pyIn "youtube.com" rq.referer.raw then
      let r := CheckYouTubeAccess.execute st.channels st.video_to_channel_cache api rq.referer
      let st1 := { st with video_to_channel_cache := r.2 }
      if pyIn "Not a YouTube video URL" r.1.message then
        if st1.approved_video_ids ≠ [] then (st1, .forward)
        else (st1, .youtubeBlockPage)
      else if ¬ r.1.allowed then (st1, .youtubeBlockPage)
      else (st1, .forward)
    else
      (st, .youtubeBlockPage)
  else
    (st, .forward)

/-- The clearing that precedes the evaluator call in the watch-page
handling: `if current_video_id and current_video_id not in
self._approved_video_ids: if self._approved_video_ids:
self._approved_video_ids.clear()`. -/
def ProxyHandler.approved_after_new_video_clear (approved : List String)
    (current_video_id : Option String) : List String :=
  match current_video_id with
  | some v =>
      if v ≠ "" ∧ v ∉ approved then
        if approved ≠ [] then [] else approved
      else approved
  | none => approved

/-- The `youtube.com` watch-page handling inside `ProxyHandler.request`:
clear stale approvals on a new video id, run the evaluator, either block
(clearing the approved set) or record the approval and fall through. -/
def ProxyHandler.youtube_step (api : String → Option String)
    (st : ProxyState) (rq : Request) : ProxyState × Option ProxyResponse :=
  let current_video_id := currentVideoId rq.url
  let approved1 :=
    ProxyHandler.approved_after_new_video_clear st.approved_video_ids current_video_id
  let r := CheckYouTubeAccess.execute st.channels st.video_to_channel_cache api rq.url
  if ¬ r.1.allowed then
    ({ st with approved_video_ids := [], video_to_channel_cache := r.2 },
     some .youtubeBlockPage)
  else
    let approved2 :=
      match current_video_id with
      | some v =>
          if pyIn "whitelisted" r.1.message ∧ v ≠ "" then setAdd approved1 v
          else approved1
      | none => approved1
    ({ st with approved_video_ids := approved2, video_to_channel_cache := r.2 },
     none)

/-- `ProxyHandler.request` (the two-flow dispatcher), for ordinary
requests (the two dedicated `/__track_location__` and
`/__check_youtube_video__` endpoints are modelled separately). -/
def ProxyHandler.request (api : String → Option String)
    (st : ProxyState) (rq : Request) : ProxyState × ProxyResponse :=
  if st.verify_is_blocked then
    match ProxyHandler.handle_blocked_location_flow st rq.full_hostname
        rq.base_domain with
    | Except.ok resp => (st, resp)
    | Except.error e => (st, .raised e)
  else
    let decision := CheckDomainAccess.execute st.domainRows st.auto_whitelisted_hosts
      rq.full_hostname rq.base_domain
    if decision.allowed then
      if CheckYouTubeAccess.is_enabled st.channels
          && pyIn "youtube.com" rq.full_hostname then
        match ProxyHandler.youtube_step api st rq with
        | (st1, some resp) => (st1, resp)
        | (st1, none) => ProxyHandler.googlevideo_step api st1 rq
      else
        ProxyHandler.googlevideo_step api st rq
    else
      (st, .domainBlockPage rq.base_domain)

/-! ## `ProxyHandler._detect_captive_portal`

Runs on every response.  `base_domain_of` models
`tldextract.extract(...)` re-joined as `f"{domain}.{suffix}"`, and
`netloc_of` models `urlparse(location).netloc`; both are external library
calls. -/

/-- The response data `_detect_captive_portal` reads: the status code, the
`Location` header (`headers.get("Location", "")`), and the request host. -/
structure ResponseEvent where
  status_code : Int
  location : String
  request_host : String
deriving DecidableEq, Repr

/-- Assign `v` to key `k` of a Python dict modelled as an association
list. -/
def dictSet (t : List (String × List String)) (k : String) (v : List String) :
    List (String × List String) :=
  match t with
  | [] => [(k, v)]
  | (k', v') :: rest =>
      if k' = k then (k, v) :: rest else (k', v') :: dictSet rest k v

/-- `ProxyHandler._detect_captive_portal(flow)`: redirect-chain analysis on
301/302/303/307 plus the 511 trigger.  Takes and returns the pair
`(redirect_tracker, auto_whitelisted_hosts)`. -/
def ProxyHandler.detect_captive_portal
    (base_domain_of : String → String) (netloc_of : String → String)
    (tracker : List (String × List String)) (auto : List String)
    (ev : ResponseEvent) : List (String × List String) × List String :=
  let step1 :=
    if ev.status_code ∈ ([302, 307, 303, 301] : List Int) ∧ ev.location ≠ "" then
      let redirect_host :=
        if pyStartsWith "http" ev.location then netloc_of ev.location
        else ev.request_host
      let redirect_base_domain := base_domain_of redirect_host
      let orig_base_domain := base_domain_of ev.request_host
      if redirect_base_domain ≠ orig_base_domain then
        if CAPTIVE_PORTAL_HOSTS.any (fun host => pyIn host ev.request_host) then
          (tracker, add_auto_whitelisted_host auto redirect_base_domain)
        else
          let origins := (tracker.lookup redirect_base_domain).getD []
          let origins1 := setAdd origins orig_base_domain
          let tracker1 := dictSet tracker redirect_base_domain origins1
          if origins1.length ≥ 2 then
            (tracker1, add_auto_whitelisted_host auto redirect_base_domain)
          else
            (tracker1, auto)
      else
        (tracker, auto)
    else
      (tracker, auto)
  if ev.status_code = 511 then
    (step1.1, add_auto_whitelisted_host step1.2 (base_domain_of ev.request_host))
  else
    step1

/-! ## `ProxyHandler._handle_youtube_video_check`

The `/__check_youtube_video__` endpoint.  The whole body sits in a
`try/except Exception` whose handler responds `200` with
`{"blocked": false}`.  The one operation in the body that can realistically
raise is the evaluator call on the rebuilt watch URL, so that call is
modelled as an `Except`: `.error` is a raised exception reaching the
`except` clause, `.ok` a returned decision. -/

/-- The JSON response of the video-check endpoint (only the fields the
claims are about: HTTP status and the `blocked` flag). -/
structure VideoCheckResponse where
  status : Int
  blocked : Bool
deriving DecidableEq, Repr

/-- `ProxyHandler._handle_youtube_video_check(flow)`.  `video_id` is
`parse_qs(...).get('v', [None])[0]`; the returned list is the
`_approved_video_ids` set after the call. -/
def ProxyHandler.handle_youtube_video_check (approved : List String)
    (video_id : Option String) (is_enabled : Bool)
    (outcome : Except String AccessDecision) :
    VideoCheckResponse × List String :=
  if ¬ pyTruthyStr video_id then
    ({ status := 200, blocked := false }, approved)
  else
    match video_id with
    | none => ({ status := 200, blocked := false }, approved)
    | some vid =>
      if ¬ is_enabled then
        ({ status := 200, blocked := false }, approved)
      else
        match outcome with
        | .error _ => ({ status := 200, blocked := false }, approved)
        | .ok decision =>
          let blocked := ¬ decision.allowed
          let approved1 :=
            if decision.allowed ∧ pyIn "whitelisted" decision.message then
              setAdd approved vid
            else if blocked then
              approved.erase vid
            else
              approved
          ({ status := 200, blocked := blocked }, approved1)

/-! ## Derived iteration helpers (traces of events) -/

/-- First zone of the list (in configured order) containing the
coordinates, with its distance: the zone `execute`'s loop stops at. -/
def firstWithin (dist : GPSCoordinates → GPSCoordinates → ℚ)
    (coords : GPSCoordinates) : List BlockedZone → Option (BlockedZone × ℚ)
  | [] => none
  | z :: zs =>
    let r := z.is_within_zone dist coords
    if r.1 then some (z, r.2) else firstWithin dist coords zs

/-- Fold a sequence of location reports through
`VerifyLocationRestrictions.execute`. -/
def VerifyLocationRestrictions.runReports (dist : GPSCoordinates → GPSCoordinates → ℚ)
    (fmt : ℚ → String) (st : VerifyLocationRestrictions) :
    List GPSCoordinates → VerifyLocationRestrictions
  | [] => st
  | c :: cs =>
      VerifyLocationRestrictions.runReports dist fmt
        (VerifyLocationRestrictions.execute dist fmt st c).1 cs

/-- Fold a sequence of watch-page requests through
`ProxyHandler.youtube_step`. -/
def ProxyHandler.watchRun (api : String → Option String) (st : ProxyState) :
    List Request → ProxyState
  | [] => st
  | rq :: rqs =>
      ProxyHandler.watchRun api (ProxyHandler.youtube_step api st rq).1 rqs

/-! ## Theorems -/

/-- Unfolding `get_allowed_domains` over a cons cell. -/
theorem get_allowed_domains_cons (r : DomainRow) (rs : List DomainRow) :
    get_allowed_domains (r :: rs)
      = if r.enabled then
          { domain := r.domain, enabled := true } :: get_allowed_domains rs
        else get_allowed_domains rs := by
  by_cases he : r.enabled <;> simp [get_allowed_domains, List.filter_cons, he]

/-- Rule 4's guard, unfolded to the repository rows: some enabled row's
domain is a substring of the host or of the base domain. -/
theorem get_allowed_domains_any_iff (rows : List DomainRow) (host base_domain : String) :
    (get_allowed_domains rows).any (fun d => d.matches host || d.matches base_domain) = true
      ↔ ∃ r ∈ rows, r.enabled = true
          ∧ (pyIn r.domain host = true ∨ pyIn r.domain base_domain = true) := by
  constructor
  · intro h
    rcases List.any_eq_true.mp h with ⟨d, hd, hm⟩
    rw [get_allowed_domains] at hd
    rcases List.mem_map.mp hd with ⟨r, hrf, rfl⟩
    rcases List.mem_filter.mp hrf with ⟨hr, hen⟩
    exact ⟨r, hr, by simpa using hen, by simpa [Domain.matches] using hm⟩
  · rintro ⟨r, hr, hen, hm⟩
    apply List.any_eq_true.mpr
    refine ⟨{ domain := r.domain, enabled := true }, ?_, ?_⟩
    · rw [get_allowed_domains]
      exact List.mem_map.mpr ⟨r, List.mem_filter.mpr ⟨hr, by simpa using hen⟩, rfl⟩
    · simpa [Domain.matches] using hm

/-- C2: `CheckDomainAccess.execute` applies exactly the ordered rule set,
first match winning: (1) captive-portal detection host contained in the
full hostname → Allow(CAPTIVE_PORTAL); (2) base domain auto-whitelisted
and not youtube.com → Allow(CAPTIVE_PORTAL), and for youtube.com the
auto-whitelist set is irrelevant; (3) base domain an essential host →
Allow(ESSENTIAL_ALWAYS_ALLOWED); (4) some enabled repository domain a
substring of the full hostname or the base domain → Allow(NOT_WHITELISTED);
(5) otherwise Deny(NOT_WHITELISTED, "Domain not whitelisted: {base_domain}"). -/
theorem checkDomainAccess_ordered_rules (rows : List DomainRow) (auto : List String)
    (host base_domain : String) :
    (CAPTIVE_PORTAL_HOSTS.any (fun p => pyIn p host) = true →
      CheckDomainAccess.execute rows auto host base_domain
        = AccessDecision.allow .CAPTIVE_PORTAL ("Captive portal detection URL: " ++ host))
  ∧ (CAPTIVE_PORTAL_HOSTS.any (fun p => pyIn p host) = false →
      base_domain ∈ auto → base_domain ≠ "youtube.com" →
      CheckDomainAccess.execute rows auto host base_domain
        = AccessDecision.allow .CAPTIVE_PORTAL ("Auto-detected captive portal: " ++ base_domain))
  ∧ (CheckDomainAccess.execute rows auto host "youtube.com"
        = CheckDomainAccess.execute rows [] host "youtube.com")
  ∧ (CAPTIVE_PORTAL_HOSTS.any (fun p => pyIn p host) = false →
      ¬ (base_domain ∈ auto ∧ base_domain ≠ "youtube.com") →
      base_domain ∈ ESSENTIAL_HOSTS →
      CheckDomainAccess.execute rows auto host base_domain
        = AccessDecision.allow .ESSENTIAL_ALWAYS_ALLOWED ("Essential host: " ++ base_domain))
  ∧ (CAPTIVE_PORTAL_HOSTS.any (fun p => pyIn p host) = false →
      ¬ (base_domain ∈ auto ∧ base_domain ≠ "youtube.com") →
      base_domain ∉ ESSENTIAL_HOSTS →
      (∃ r ∈ rows, r.enabled = true
          ∧ (pyIn r.domain host = true ∨ pyIn r.domain base_domain = true)) →
      CheckDomainAccess.execute rows auto host base_domain
        = AccessDecision.allow .NOT_WHITELISTED ("Whitelisted domain: " ++ host))
  ∧ (CAPTIVE_PORTAL_HOSTS.any (fun p => pyIn p host) = false →
      ¬ (base_domain ∈ auto ∧ base_domain ≠ "youtube.com") →
      base_domain ∉ ESSENTIAL_HOSTS →
      ¬ (∃ r ∈ rows, r.enabled = true
          ∧ (pyIn r.domain host = true ∨ pyIn r.domain base_domain = true)) →
      CheckDomainAccess.execute rows auto host base_domain
        = AccessDecision.deny .NOT_WHITELISTED ("Domain not whitelisted: " ++ base_domain)) := by
  refine ⟨?_, ?_, ?_, ?_, ?_, ?_⟩
  · intro h1
    simp [CheckDomainAccess.execute, h1]
  · intro h1 h2 h3
    simp [CheckDomainAccess.execute, h1, h2, h3]
  · by_cases h1 : CAPTIVE_PORTAL_HOSTS.any (fun p => pyIn p host) = true
    · simp [CheckDomainAccess.execute, h1]
    · simp [CheckDomainAccess.execute, h1]
  · intro h1 h2 h3
    simp [CheckDomainAccess.execute, h1, h2, h3]
  · intro h1 h2 h3 h4
    rw [← get_allowed_domains_any_iff rows host base_domain] at h4
    simp [CheckDomainAccess.execute, h1, h2, h3, h4]
  · intro h1 h2 h3 h4
    rw [← get_allowed_domains_any_iff rows host base_domain] at h4
    simp [CheckDomainAccess.execute, h1, h2, h3, h4]

/-- Witness for `checkDomainAccess_ordered_rules`: the deny rule at a
concrete non-whitelisted input. -/
theorem checkDomainAccess_ordered_rules_witness :
    CheckDomainAccess.execute [⟨"amazon.com", true⟩] ["portal.example"] "www.foo.com" "foo.com"
      = AccessDecision.deny .NOT_WHITELISTED "Domain not whitelisted: foo.com" :=
  (checkDomainAccess_ordered_rules [⟨"amazon.com", true⟩] ["portal.example"]
    "www.foo.com" "foo.com").2.2.2.2.2 (by decide) (by decide) (by decide) (by decide)

/-- C8: video-ID extraction prefers the `v` parameter (truncating at a
literal `?`, so `"LIhkYiYLON0?v=LIhkYiYLON0"` yields `"LIhkYiYLON0"`),
then `docid`, then a `youtu.be` path; when nothing yields an ID,
`execute` returns Allow(NOT_WHITELISTED, "Not a YouTube video URL"), and a
URL with no extractable ID is never denied. -/
theorem extract_video_id_ordered (u : ParsedURL) :
    (∀ vid rest, u.vParams = vid :: rest →
      CheckYouTubeAccess.extract_video_id u
        = some (if pyIn "?" vid then pySplitHead '?' vid else vid))
  ∧ (∀ vid rest, u.vParams = [] → u.docidParams = vid :: rest →
      CheckYouTubeAccess.extract_video_id u = some vid)
  ∧ (u.vParams = [] → u.docidParams = [] → pyIn "youtu.be/" u.raw = true →
      CheckYouTubeAccess.extract_video_id u = some (pyStripChar '/' u.path))
  ∧ (u.vParams = [] → u.docidParams = [] → pyIn "youtu.be/" u.raw = false →
      CheckYouTubeAccess.extract_video_id u = none)
  ∧ CheckYouTubeAccess.extract_video_id
      { vParams := ["LIhkYiYLON0?v=LIhkYiYLON0"], docidParams := [], path := "/watch"
      , raw := "https://m.youtube.com/watch?v=LIhkYiYLON0?v=LIhkYiYLON0" }
      = some "LIhkYiYLON0"
  ∧ (∀ channels cache api, CheckYouTubeAccess.extract_video_id u = none →
      CheckYouTubeAccess.execute channels cache api u
        = (AccessDecision.allow .NOT_WHITELISTED "Not a YouTube video URL", cache))
  ∧ (∀ channels cache api,
      (CheckYouTubeAccess.execute channels cache api u).1.allowed = false →
      pyTruthyStr (CheckYouTubeAccess.extract_video_id u) = true) := by
  obtain ⟨vp, dp, path, raw⟩ := u
  refine ⟨?_, ?_, ?_, ?_, by decide, ?_, ?_⟩
  · intro vid rest h
    simp only at h
    subst h
    simp only [CheckYouTubeAccess.extract_video_id]
    split <;> rfl
  · intro vid rest h1 h2
    simp only at h1 h2
    subst h1; subst h2
    simp [CheckYouTubeAccess.extract_video_id]
  · intro h1 h2 h3
    simp only at h1 h2
    subst h1; subst h2
    simp [CheckYouTubeAccess.extract_video_id, h3]
  · intro h1 h2 h3
    simp only at h1 h2
    subst h1; subst h2
    simp [CheckYouTubeAccess.extract_video_id, h3]
  · intro channels cache api h
    simp [CheckYouTubeAccess.execute, h, pyTruthyStr]
  · intro channels cache api h
    by_cases hx : pyTruthyStr (CheckYouTubeAccess.extract_video_id ⟨vp, dp, path, raw⟩) = true
    · exact hx
    · exfalso
      rw [CheckYouTubeAccess.execute] at h
      simp only [hx, Bool.not_eq_true] at h
      simp [hx] at h
      simp [AccessDecision.allow] at h

/-- Witness for `extract_video_id_ordered`: the plain-homepage URL yields
no video ID. -/
theorem extract_video_id_ordered_witness :
    CheckYouTubeAccess.extract_video_id
      { vParams := [], docidParams := [], path := "/", raw := "https://www.youtube.com/" }
      = none :=
  (extract_video_id_ordered _).2.2.2.1 rfl rfl (by decide)

/-- C7: when the video→channel cache misses and the API client returns
nothing, `execute` denies with "Could not verify channel for video {id}"
and leaves the cache unchanged; a successful resolution is memoized, and a
later lookup of that video does not re-invoke the client. -/
theorem channel_resolution_fail_closed (channels : List YouTubeChannel)
    (cache : List (String × String)) (api : String → Option String)
    (u : ParsedURL) (vid : String) :
    (CheckYouTubeAccess.extract_video_id u = some vid → vid ≠ "" →
      cache.lookup vid = none → api vid = none →
      CheckYouTubeAccess.execute channels cache api u
        = (AccessDecision.deny .YOUTUBE_CHANNEL_BLOCKED
            ("Could not verify channel for video " ++ vid), cache))
  ∧ (∀ cid, cache.lookup vid = none → api vid = some cid →
      CheckYouTubeAccess.get_channel_id cache api vid
        = { channel_id := some cid, cache := (vid, cid) :: cache, invoked_api := true })
  ∧ (∀ cid, cache.lookup vid = some cid →
      CheckYouTubeAccess.get_channel_id cache api vid
        = { channel_id := some cid, cache := cache, invoked_api := false })
  ∧ (∀ cid, cache.lookup vid = none → api vid = some cid →
      (CheckYouTubeAccess.get_channel_id
          ((CheckYouTubeAccess.get_channel_id cache api vid).cache) api vid).invoked_api
        = false) := by
  refine ⟨?_, ?_, ?_, ?_⟩
  · intro hext hne hmiss hfail
    rw [CheckYouTubeAccess.execute]
    simp [hext, pyTruthyStr, hne, CheckYouTubeAccess.get_channel_id, hmiss, hfail]
  · intro cid hmiss hok
    simp [CheckYouTubeAccess.get_channel_id, hmiss, hok]
  · intro cid hhit
    simp [CheckYouTubeAccess.get_channel_id, hhit]
  · intro cid hmiss hok
    simp [CheckYouTubeAccess.get_channel_id, hmiss, hok, List.lookup]

/-- Witness for `channel_resolution_fail_closed`: an unresolvable watch
URL is denied fail-closed at a concrete input. -/
theorem channel_resolution_fail_closed_witness :
    CheckYouTubeAccess.execute [⟨"UCabc", "c", true⟩] [] (fun _ => none)
      { vParams := ["v1"], docidParams := [], path := "/watch"
      , raw := "https://www.youtube.com/watch?v=v1" }
      = (AccessDecision.deny .YOUTUBE_CHANNEL_BLOCKED
          "Could not verify channel for video v1", []) :=
  (channel_resolution_fail_closed [⟨"UCabc", "c", true⟩] [] (fun _ => none)
    { vParams := ["v1"], docidParams := [], path := "/watch"
    , raw := "https://www.youtube.com/watch?v=v1" } "v1").1
    (by decide) (by decide) rfl rfl

/-- C3: the claim expects every `BlockedZone` to carry an `id` field, set by
`get_blocked_zones` and surfaced by `blocked_zone_id`.  On the code as
written this fails: the dataclass declares no `id` field, so the
repository's keyword construction `BlockedZone(id=...)` raises (the
`except` clause then yields `[]` for any non-empty row set) and an `id`
attribute read on a current zone cannot succeed. -/
theorem blockedZone_id_field_missing :
    "id" ∈ get_blocked_zones_keywords
  ∧ "id" ∉ BlockedZone.fieldNames
  ∧ dataclassCallOk BlockedZone.fieldNames get_blocked_zones_keywords = false
  ∧ PostgresLocationRepository.get_blocked_zones
      [{ id := 1, name := "Z1", latitude := 481785/10000, longitude := 164207/10000
       , radius_meters := 100 }] = []
  ∧ (∀ st : VerifyLocationRestrictions, st.current_blocked_zone ≠ none →
      VerifyLocationRestrictions.blocked_zone_id_attribute_exists st = false) := by
  refine ⟨by decide, by decide, by decide, ?_, ?_⟩
  · rfl
  · intro st h
    cases hz : st.current_blocked_zone with
    | none => exact absurd hz h
    | some z =>
      rw [VerifyLocationRestrictions.blocked_zone_id_attribute_exists, hz]
      exact (by decide : BlockedZone.fieldNames.contains "id" = false)

/-- Witness for `blockedZone_id_field_missing`: the attribute-read failure
at a concrete state holding a current zone. -/
theorem blockedZone_id_field_missing_witness :
    VerifyLocationRestrictions.blocked_zone_id_attribute_exists
      { blocked_zones := []
      , currently_at_blocked_location := true
      , current_blocked_zone := some
          { coordinates := { latitude := 0, longitude := 0 }
          , radius_meters := 100, name := "Z1" }
      , last_distance := some 0 } = false :=
  blockedZone_id_field_missing.2.2.2.2 _ (by decide)

/-- C10: the video-check endpoint fails open on an internal error —
HTTP 200 with `blocked = false` and an untouched approved set — and on a
block result it removes only the checked video ID from the approved set. -/
theorem video_check_fails_open (approved : List String) (video_id : Option String)
    (is_enabled : Bool) :
    (∀ err, ProxyHandler.handle_youtube_video_check approved video_id is_enabled
        (.error err)
      = ({ status := 200, blocked := false }, approved))
  ∧ (∀ outcome, (ProxyHandler.handle_youtube_video_check approved video_id is_enabled
        outcome).1.status = 200)
  ∧ (∀ vid decision, video_id = some vid → vid ≠ "" → is_enabled = true →
      decision.allowed = false →
      ProxyHandler.handle_youtube_video_check approved video_id is_enabled (.ok decision)
        = ({ status := 200, blocked := true }, approved.erase vid))
  ∧ (∀ vid decision w, video_id = some vid → vid ≠ "" → is_enabled = true →
      decision.allowed = false → w ≠ vid →
      (w ∈ (ProxyHandler.handle_youtube_video_check approved video_id is_enabled
          (.ok decision)).2 ↔ w ∈ approved)) := by
  refine ⟨?_, ?_, ?_, ?_⟩
  · intro err
    unfold ProxyHandler.handle_youtube_video_check
    cases video_id with
    | none => simp [pyTruthyStr]
    | some vid =>
      by_cases hv : vid = "" <;> by_cases he : is_enabled <;>
        simp [pyTruthyStr, hv, he]
  · intro outcome
    unfold ProxyHandler.handle_youtube_video_check
    cases video_id with
    | none => simp [pyTruthyStr]
    | some vid =>
      by_cases hv : vid = ""
      · simp [pyTruthyStr, hv]
      · by_cases he : is_enabled
        · cases outcome with
          | error e => simp [pyTruthyStr, hv, he]
          | ok d => simp [pyTruthyStr, hv, he]
        · simp [pyTruthyStr, hv, he]
  · intro vid decision hvid hne hen hdeny
    subst hvid
    unfold ProxyHandler.handle_youtube_video_check
    simp [pyTruthyStr, hne, hen, hdeny]
  · intro vid decision w hvid hne hen hdeny hw
    subst hvid
    unfold ProxyHandler.handle_youtube_video_check
    simp only [pyTruthyStr, hne, hen, hdeny]
    simp [pyTruthyStr, hne, hdeny, List.mem_erase_of_ne hw]

/-- Witness for `video_check_fails_open`: a blocked check removes only the
checked ID from a concrete two-element approved set. -/
theorem video_check_fails_open_witness :
    ProxyHandler.handle_youtube_video_check ["v1", "v2"] (some "v1") true
        (.ok (AccessDecision.deny .YOUTUBE_CHANNEL_BLOCKED "YouTube channel UCx not whitelisted"))
      = ({ status := 200, blocked := true }, ["v2"]) :=
  (video_check_fails_open ["v1", "v2"] (some "v1") true).2.2.1 "v1"
    (AccessDecision.deny .YOUTUBE_CHANNEL_BLOCKED "YouTube channel UCx not whitelisted")
    rfl (by decide) rfl rfl

/-- Membership in a Python-set add. -/
theorem mem_setAdd (l : List String) (x y : String) :
    y ∈ setAdd l x ↔ y = x ∨ y ∈ l := by
  by_cases hx : x ∈ l
  · simp only [setAdd, if_pos hx]
    constructor
    · exact Or.inr
    · rintro (rfl | h)
      · exact hx
      · exact h
  · simp [setAdd, if_neg hx]

/-- The added element is a member. -/
theorem self_mem_setAdd (l : List String) (x : String) : x ∈ setAdd l x :=
  (mem_setAdd l x x).mpr (Or.inl rfl)

/-- C9: on a 301/302/303/307 response whose redirect target's base domain
differs from the request's: a captive-portal-host origin auto-whitelists
the target immediately; otherwise the origin is recorded in the redirect
tracker and the target is auto-whitelisted exactly when its recorded
distinct origins reach 2 (after a single distinct origin it is not); a 511
response auto-whitelists the request's base domain immediately. -/
theorem captive_portal_detection (bd netloc : String → String)
    (tracker : List (String × List String)) (auto : List String)
    (ev : ResponseEvent) (rbd obd : String)
    (hrbd : rbd = bd (if pyStartsWith "http" ev.location then netloc ev.location
                      else ev.request_host))
    (hobd : obd = bd ev.request_host) :
    (ev.status_code ∈ ([302, 307, 303, 301] : List Int) → ev.location ≠ "" →
      rbd ≠ obd →
      CAPTIVE_PORTAL_HOSTS.any (fun h => pyIn h ev.request_host) = true →
      ProxyHandler.detect_captive_portal bd netloc tracker auto ev
        = (tracker, add_auto_whitelisted_host auto rbd))
  ∧ (ev.status_code ∈ ([302, 307, 303, 301] : List Int) → ev.location ≠ "" →
      rbd ≠ obd →
      CAPTIVE_PORTAL_HOSTS.any (fun h => pyIn h ev.request_host) = false →
      (ProxyHandler.detect_captive_portal bd netloc tracker auto ev).1
          = dictSet tracker rbd (setAdd ((tracker.lookup rbd).getD []) obd)
        ∧ (rbd ∈ (ProxyHandler.detect_captive_portal bd netloc tracker auto ev).2
            ↔ rbd ∈ auto
              ∨ 2 ≤ (setAdd ((tracker.lookup rbd).getD []) obd).length))
  ∧ (ev.status_code ∈ ([302, 307, 303, 301] : List Int) → ev.location ≠ "" →
      rbd ≠ obd →
      CAPTIVE_PORTAL_HOSTS.any (fun h => pyIn h ev.request_host) = false →
      tracker.lookup rbd = none → rbd ∉ auto →
      rbd ∉ (ProxyHandler.detect_captive_portal bd netloc tracker auto ev).2)
  ∧ (∀ o1, ev.status_code ∈ ([302, 307, 303, 301] : List Int) → ev.location ≠ "" →
      rbd ≠ obd →
      CAPTIVE_PORTAL_HOSTS.any (fun h => pyIn h ev.request_host) = false →
      tracker.lookup rbd = some [o1] → o1 ≠ obd →
      rbd ∈ (ProxyHandler.detect_captive_portal bd netloc tracker auto ev).2)
  ∧ (ev.status_code = 511 →
      bd ev.request_host
        ∈ (ProxyHandler.detect_captive_portal bd netloc tracker auto ev).2) := by
  subst hrbd; subst hobd
  have h511 : ev.status_code ∈ ([302, 307, 303, 301] : List Int) →
      ¬ ev.status_code = 511 := by
    intro hst
    simp only [List.mem_cons, List.mem_singleton, List.not_mem_nil, or_false] at hst
    rcases hst with h | h | h | h <;> omega
  refine ⟨?_, ?_, ?_, ?_, ?_⟩
  · intro hst hloc hne hcap
    simp [ProxyHandler.detect_captive_portal, hst, hloc, hne, hcap, h511 hst]
  · intro hst hloc hne hcap
    by_cases hth :
        2 ≤ (setAdd (((tracker.lookup (bd (if pyStartsWith "http" ev.location
          then netloc ev.location else ev.request_host)))).getD [])
          (bd ev.request_host)).length
    · constructor
      · simp [ProxyHandler.detect_captive_portal, hst, hloc, hne, hcap, h511 hst, hth]
      · simp [ProxyHandler.detect_captive_portal, hst, hloc, hne, hcap, h511 hst, hth,
          add_auto_whitelisted_host, self_mem_setAdd]
    · constructor
      · simp [ProxyHandler.detect_captive_portal, hst, hloc, hne, hcap, h511 hst, hth]
      · simp [ProxyHandler.detect_captive_portal, hst, hloc, hne, hcap, h511 hst, hth]
  · intro hst hloc hne hcap hfresh hauto
    have hth : ¬ 2 ≤ (setAdd (((tracker.lookup (bd (if pyStartsWith "http" ev.location
        then netloc ev.location else ev.request_host)))).getD [])
        (bd ev.request_host)).length := by
      rw [hfresh]
      simp [setAdd]
    simp [ProxyHandler.detect_captive_portal, hst, hloc, hne, hcap, h511 hst, hth, hauto]
  · intro o1 hst hloc hne hcap hone hdistinct
    have hth : 2 ≤ (setAdd (((tracker.lookup (bd (if pyStartsWith "http" ev.location
        then netloc ev.location else ev.request_host)))).getD [])
        (bd ev.request_host)).length := by
      rw [hone]
      have hne2 : ¬ bd ev.request_host = o1 := fun h => hdistinct h.symm
      simp [setAdd, hne2]
    simp [ProxyHandler.detect_captive_portal, hst, hloc, hne, hcap, h511 hst, hth,
      add_auto_whitelisted_host, self_mem_setAdd]
  · intro hst
    have hmem : ev.status_code ∉ ([302, 307, 303, 301] : List Int) := by
      simp [hst]
    simp [ProxyHandler.detect_captive_portal, hst, hmem,
      add_auto_whitelisted_host, self_mem_setAdd]

/-- Witness for `captive_portal_detection`: a second distinct-origin
redirect to `example.com` auto-whitelists it, concretely. -/
theorem captive_portal_detection_witness :
    "example.com"
      ∈ (ProxyHandler.detect_captive_portal (fun s => s) (fun _ => "example.com")
          [("example.com", ["origin1.com"])] []
          { status_code := 302, location := "http://example.com/login"
          , request_host := "origin2.com" }).2 :=
  ((captive_portal_detection (fun s => s) (fun _ => "example.com")
      [("example.com", ["origin1.com"])] []
      { status_code := 302, location := "http://example.com/login"
      , request_host := "origin2.com" } "example.com" "origin2.com"
      (by decide) (by decide)).2.2.2.1) "origin1.com"
    (by decide) (by decide) (by decide) (by decide) (by decide) (by decide)


/-- Every character list leads with itself. -/
theorem leadsWith_refl (l : List Char) : leadsWith l l = true := by
  induction l with
  | nil => rfl
  | cons a as ih => simp [leadsWith, ih]

/-- Every string contains itself as a substring. -/
theorem pyIn_refl (s : String) : pyIn s s = true := by
  unfold pyIn
  cases h : s.toList with
  | nil => simp [hasSegment]
  | cons b bs => simp [hasSegment, leadsWith_refl]

/-- C5 counterexample: a googlevideo request whose youtube.com referer
carries the crafted video id "Not a YouTube video URL".  A video ID *is*
extracted from the referer and the evaluator *denies* it, yet the handler
forwards the request (because it tests the decision message for the marker
substring, which this deny message happens to contain) — against the
claim's "otherwise the decision is the YouTube evaluator's decision". -/
theorem googlevideo_referer_decision_counterexample :
    pyTruthyStr (CheckYouTubeAccess.extract_video_id
      { vParams := ["Not a YouTube video URL"], docidParams := []
      , path := "/watch"
      , raw := "https://www.youtube.com/watch?v=Not+a+YouTube+video+URL" }) = true
  ∧ (CheckYouTubeAccess.execute [⟨"UCabc", "c", true⟩] [] (fun _ => none)
      { vParams := ["Not a YouTube video URL"], docidParams := []
      , path := "/watch"
      , raw := "https://www.youtube.com/watch?v=Not+a+YouTube+video+URL" }).1.allowed
      = false
  ∧ (ProxyHandler.request (fun _ => none)
      { verify_is_blocked := false
      , verify_current_blocked_zone := none
      , domainRows := [{ domain := "googlevideo.com", enabled := true }]
      , auto_whitelisted_hosts := []
      , zone_whitelist := fun _ => []
      , channels := [⟨"UCabc", "c", true⟩]
      , video_to_channel_cache := []
      , approved_video_ids := ["x"]
      , redirect_tracker := [] }
      { full_hostname := "r1---sn.googlevideo.com", base_domain := "googlevideo.com"
      , url := { vParams := [], docidParams := [], path := "/videoplayback"
               , raw := "https://r1---sn.googlevideo.com/videoplayback" }
      , referer := { vParams := ["Not a YouTube video URL"], docidParams := []
                   , path := "/watch"
                   , raw := "https://www.youtube.com/watch?v=Not+a+YouTube+video+URL" } }).2
      = .forward := by
  refine ⟨by decide, by decide, by decide⟩

/-- C5 (amended): for a googlevideo.com request in the normal flow with
YouTube filtering enabled: no referer, or one not containing youtube.com,
blocks unconditionally; when the referer contains youtube.com, the handler
keys on the evaluator's decision message — if it contains
"Not a YouTube video URL" (in particular whenever no video ID is
extractable from the referer) the request is allowed iff the approved set
is non-empty, and otherwise the evaluator's decision on the referer URL
decides. -/
theorem googlevideo_cdn_correlation (api : String → Option String)
    (st : ProxyState) (rq : Request)
    (hnb : st.verify_is_blocked = false)
    (hallow : (CheckDomainAccess.execute st.domainRows st.auto_whitelisted_hosts
        rq.full_hostname rq.base_domain).allowed = true)
    (hen : CheckYouTubeAccess.is_enabled st.channels = true)
    (hgv : pyIn "googlevideo.com" rq.full_hostname = true)
    (hnyt : pyIn "youtube.com" rq.full_hostname = false) :
    ((rq.referer.raw = "" ∨ pyIn "youtube.com" rq.referer.raw = false) →
      (ProxyHandler.request api st rq).2 = .youtubeBlockPage)
  ∧ (rq.referer.raw ≠ "" → pyIn "youtube.com" rq.referer.raw = true →
      pyIn "Not a YouTube video URL"
        (CheckYouTubeAccess.execute st.channels st.video_to_channel_cache api
          rq.referer).1.message = true →
      ((ProxyHandler.request api st rq).2 = .forward
        ↔ st.approved_video_ids ≠ []))
  ∧ (rq.referer.raw ≠ "" → pyIn "youtube.com" rq.referer.raw = true →
      pyIn "Not a YouTube video URL"
        (CheckYouTubeAccess.execute st.channels st.video_to_channel_cache api
          rq.referer).1.message = false →
      (ProxyHandler.request api st rq).2
        = (if (CheckYouTubeAccess.execute st.channels st.video_to_channel_cache api
              rq.referer).1.allowed
           then .forward else .youtubeBlockPage))
  ∧ (pyTruthyStr (CheckYouTubeAccess.extract_video_id rq.referer) = false →
      pyIn "Not a YouTube video URL"
        (CheckYouTubeAccess.execute st.channels st.video_to_channel_cache api
          rq.referer).1.message = true) := by
  have hstep : ProxyHandler.request api st rq
      = ProxyHandler.googlevideo_step api st rq := by
    rw [ProxyHandler.request]
    simp [hnb, hallow, hnyt]
  refine ⟨?_, ?_, ?_, ?_⟩
  · intro hr
    rw [hstep, ProxyHandler.googlevideo_step]
    have hcond : ¬ (rq.referer.raw ≠ "" ∧ pyIn "youtube.com" rq.referer.raw = true) := by
      rcases hr with hr | hr
      · exact fun hc => hc.1 hr
      · exact fun hc => by rw [hr] at hc; exact Bool.false_ne_true hc.2
    simp [hen, hgv, hcond]
  · intro hr1 hr2 hm
    rw [hstep, ProxyHandler.googlevideo_step]
    by_cases happ : st.approved_video_ids = []
    · simp [hen, hgv, hr1, hr2, hm, happ]
    · simp [hen, hgv, hr1, hr2, hm, happ]
  · intro hr1 hr2 hm
    rw [hstep, ProxyHandler.googlevideo_step]
    by_cases hal : (CheckYouTubeAccess.execute st.channels st.video_to_channel_cache api
        rq.referer).1.allowed = true
    · simp [hen, hgv, hr1, hr2, hm, hal]
    · simp [hen, hgv, hr1, hr2, hm, hal]
  · intro hf
    rw [CheckYouTubeAccess.execute]
    simp only [hf, Bool.not_eq_true, if_true]
    simp [AccessDecision.allow, pyIn_refl]

/-- Witness for `googlevideo_cdn_correlation`: a refererless googlevideo
fetch is blocked at a concrete input. -/
theorem googlevideo_cdn_correlation_witness :
    (ProxyHandler.request (fun _ => none)
      { verify_is_blocked := false
      , verify_current_blocked_zone := none
      , domainRows := [{ domain := "googlevideo.com", enabled := true }]
      , auto_whitelisted_hosts := []
      , zone_whitelist := fun _ => []
      , channels := [⟨"UCabc", "c", true⟩]
      , video_to_channel_cache := []
      , approved_video_ids := ["x"]
      , redirect_tracker := [] }
      { full_hostname := "r1---sn.googlevideo.com", base_domain := "googlevideo.com"
      , url := { vParams := [], docidParams := [], path := "/videoplayback"
               , raw := "https://r1---sn.googlevideo.com/videoplayback" }
      , referer := { vParams := [], docidParams := [], path := "", raw := "" } }).2
      = .youtubeBlockPage :=
  (googlevideo_cdn_correlation (fun _ => none) _ _ rfl (by decide) (by decide)
    (by decide) (by decide)).1 (Or.inl rfl)

/-- The loop of `VerifyLocationRestrictions.execute` is determined by the
first zone containing the coordinates. -/
theorem executeLoop_eq_firstWithin (dist : GPSCoordinates → GPSCoordinates → ℚ)
    (fmt : ℚ → String) (st : VerifyLocationRestrictions)
    (coords : GPSCoordinates) (zones : List BlockedZone) :
    VerifyLocationRestrictions.executeLoop dist fmt st coords zones
      = match firstWithin dist coords zones with
        | some (z, d) =>
            ({ st with currently_at_blocked_location := true
                     , current_blocked_zone := some z
                     , last_distance := some d },
             AccessDecision.deny .LOCATION_RESTRICTED
               ("At blocked location: " ++ z.name ++ " (" ++ fmt d ++ "m from center)"))
        | none =>
            ({ st with currently_at_blocked_location := false
                     , current_blocked_zone := none
                     , last_distance := none },
             AccessDecision.allow .LOCATION_RESTRICTED "Not at blocked location") := by
  induction zones with
  | nil => rfl
  | cons z zs ih =>
    rw [VerifyLocationRestrictions.executeLoop, firstWithin]
    by_cases hz : (z.is_within_zone dist coords).1 = true
    · simp [hz]
    · simp only [Bool.not_eq_true] at hz
      simp [hz, ih]

/-- `firstWithin` picks the head of the first containing zone, whatever
comes after it. -/
theorem firstWithin_append (dist : GPSCoordinates → GPSCoordinates → ℚ)
    (coords : GPSCoordinates) (pre : List BlockedZone) (z : BlockedZone)
    (post : List BlockedZone)
    (hpre : ∀ z' ∈ pre, (z'.is_within_zone dist coords).1 = false)
    (hz : (z.is_within_zone dist coords).1 = true) :
    firstWithin dist coords (pre ++ z :: post)
      = some (z, (z.is_within_zone dist coords).2) := by
  induction pre with
  | nil => simp [firstWithin, hz]
  | cons p ps ih =>
    have hp := hpre p (List.mem_cons_self p ps)
    rw [List.cons_append, firstWithin]
    simp [hp]
    exact ih (fun z' hz' => hpre z' (List.mem_cons_of_mem p hz'))

/-- A report never changes the configured zone list. -/
theorem execute_preserves_blocked_zones (dist : GPSCoordinates → GPSCoordinates → ℚ)
    (fmt : ℚ → String) (st : VerifyLocationRestrictions) (c : GPSCoordinates) :
    (VerifyLocationRestrictions.execute dist fmt st c).1.blocked_zones
      = st.blocked_zones := by
  rw [VerifyLocationRestrictions.execute, executeLoop_eq_firstWithin]
  cases firstWithin dist c st.blocked_zones with
  | none => rfl
  | some p => rfl

/-- After any report sequence ending in `c`, the current zone is the first
zone of the configured list containing `c`. -/
theorem runReports_last_report (dist : GPSCoordinates → GPSCoordinates → ℚ)
    (fmt : ℚ → String) :
    ∀ (reports : List GPSCoordinates) (st : VerifyLocationRestrictions)
      (c : GPSCoordinates),
      (VerifyLocationRestrictions.runReports dist fmt st
          (reports ++ [c])).current_blocked_zone
        = (firstWithin dist c st.blocked_zones).map (fun p => p.1) := by
  intro reports
  induction reports with
  | nil =>
    intro st c
    rw [List.nil_append, VerifyLocationRestrictions.runReports,
      VerifyLocationRestrictions.runReports,
      VerifyLocationRestrictions.execute, executeLoop_eq_firstWithin]
    cases firstWithin dist c st.blocked_zones with
    | none => rfl
    | some p => rfl
  | cons r rs ih =>
    intro st c
    rw [List.cons_append, VerifyLocationRestrictions.runReports, ih,
      execute_preserves_blocked_zones]

/-- C4: a location report walks the configured zones in list order and
stops at the first zone containing the report (even if a later zone is
closer), entering blocked-location mode with exactly that zone and
denying with "At blocked location: {name} ({distance}m from center)";
when no zone contains the report it clears the blocked-location state and
allows with "Not at blocked location"; after any report sequence the
current zone is the first match of the last report — in particular at
most one zone is ever current. -/
theorem location_report_first_match (dist : GPSCoordinates → GPSCoordinates → ℚ)
    (fmt : ℚ → String) (st : VerifyLocationRestrictions)
    (coordinates : GPSCoordinates) :
    (∀ pre z post, st.blocked_zones = pre ++ z :: post →
      (∀ z' ∈ pre, (z'.is_within_zone dist coordinates).1 = false) →
      (z.is_within_zone dist coordinates).1 = true →
      VerifyLocationRestrictions.execute dist fmt st coordinates
        = ({ st with currently_at_blocked_location := true
                   , current_blocked_zone := some z
                   , last_distance := some (dist z.coordinates coordinates) },
           AccessDecision.deny .LOCATION_RESTRICTED
             ("At blocked location: " ++ z.name ++ " ("
               ++ fmt (dist z.coordinates coordinates) ++ "m from center)")))
  ∧ ((∀ z ∈ st.blocked_zones, (z.is_within_zone dist coordinates).1 = false) →
      VerifyLocationRestrictions.execute dist fmt st coordinates
        = ({ st with currently_at_blocked_location := false
                   , current_blocked_zone := none
                   , last_distance := none },
           AccessDecision.allow .LOCATION_RESTRICTED "Not at blocked location"))
  ∧ (∀ reports : List GPSCoordinates,
      (VerifyLocationRestrictions.runReports dist fmt st
          (reports ++ [coordinates])).current_blocked_zone
        = (firstWithin dist coordinates st.blocked_zones).map (fun p => p.1)) := by
  refine ⟨?_, ?_, ?_⟩
  · intro pre z post hsplit hpre hz
    rw [VerifyLocationRestrictions.execute, executeLoop_eq_firstWithin, hsplit,
      firstWithin_append dist coordinates pre z post hpre hz]
    rfl
  · intro hall
    have hnone : ∀ zs : List BlockedZone,
        (∀ z ∈ zs, (z.is_within_zone dist coordinates).1 = false) →
        firstWithin dist coordinates zs = none := by
      intro zs
      induction zs with
      | nil => intro _; rfl
      | cons z zs ih =>
        intro hzs
        rw [firstWithin]
        have hz := hzs z (List.mem_cons_self z zs)
        simp [hz]
        exact ih (fun z' hz' => hzs z' (List.mem_cons_of_mem z hz'))
    rw [VerifyLocationRestrictions.execute, executeLoop_eq_firstWithin,
      hnone st.blocked_zones hall]
  · intro reports
    exact runReports_last_report dist fmt reports st coordinates

/-- Witness for `location_report_first_match`: with two overlapping
concrete zones, the first configured zone wins. -/
theorem location_report_first_match_witness :
    VerifyLocationRestrictions.execute (fun _ _ => (9 : ℚ)) (fun _ => "9")
      ⟨[⟨⟨3, 0⟩, 10, "Z1"⟩, ⟨⟨0, 0⟩, 100, "Z2"⟩], false, none, none⟩
      ⟨0, 0⟩
      = (⟨[⟨⟨3, 0⟩, 10, "Z1"⟩, ⟨⟨0, 0⟩, 100, "Z2"⟩], true,
          some ⟨⟨3, 0⟩, 10, "Z1"⟩, some 9⟩,
        AccessDecision.deny .LOCATION_RESTRICTED
          "At blocked location: Z1 (9m from center)") := by
  have h := (location_report_first_match (fun _ _ => (9 : ℚ)) (fun _ => "9")
    ⟨[⟨⟨3, 0⟩, 10, "Z1"⟩, ⟨⟨0, 0⟩, 100, "Z2"⟩], false, none, none⟩
    ⟨0, 0⟩).1 [] ⟨⟨3, 0⟩, 10, "Z1"⟩ [⟨⟨0, 0⟩, 100, "Z2"⟩]
    rfl (by intro z' hz'; cases hz')
    (by simp only [BlockedZone.is_within_zone]; norm_num)
  rw [h]
  rfl

/-- C1: the claim describes the intended blocked-location flow, but the
code never realizes it: `_handle_blocked_location_flow` reads
`verify_location.blocked_zone_id` (proxy_handler.py:351) before any
check, and that property's `.id` attribute read raises `AttributeError`
on every state with a current zone (`BlockedZone` declares no `id` field,
see `blockedZone_id_field_missing`).  Since a location report enters
blocked-location mode only together with a current zone, every request in
every realizable blocked-location state raises out of `request` — neither
the essential-host allowance nor the location block page is ever
produced. -/
theorem blocked_location_flow_raises (api : String → Option String)
    (st : ProxyState) (rq : Request) :
    (∀ z : BlockedZone, st.verify_is_blocked = true →
      st.verify_current_blocked_zone = some z →
      (ProxyHandler.request api st rq).2
        = .raised "AttributeError: 'BlockedZone' object has no attribute 'id'")
  ∧ (∀ (dist : GPSCoordinates → GPSCoordinates → ℚ) (fmt : ℚ → String)
      (vst : VerifyLocationRestrictions) (c : GPSCoordinates),
      (VerifyLocationRestrictions.execute dist fmt vst
          c).1.currently_at_blocked_location = true →
      (VerifyLocationRestrictions.execute dist fmt vst c).1.current_blocked_zone
        ≠ none) := by
  constructor
  · intro z hb hz
    have hread : VerifyLocationRestrictions.blocked_zone_id_read
        st.verify_current_blocked_zone
        = Except.error "AttributeError: 'BlockedZone' object has no attribute 'id'" := by
      rw [hz]
      rfl
    rw [ProxyHandler.request]
    simp only [hb, if_true]
    rw [ProxyHandler.handle_blocked_location_flow, hread]
  · intro dist fmt vst c h
    rw [VerifyLocationRestrictions.execute, executeLoop_eq_firstWithin] at h ⊢
    cases hf : firstWithin dist c vst.blocked_zones with
    | none =>
      rw [hf] at h
      simp at h
    | some p =>
      obtain ⟨z, d⟩ := p
      simp

/-- Witness for `blocked_location_flow_raises`: at a blocked location with
a concrete current zone, a request to a globally whitelisted domain makes
the handler raise instead of answering. -/
theorem blocked_location_flow_raises_witness :
    (ProxyHandler.request (fun _ => none)
      { verify_is_blocked := true
      , verify_current_blocked_zone := some ⟨⟨0, 0⟩, 100, "Z1"⟩
      , domainRows := [{ domain := "amazon.com", enabled := true }]
      , auto_whitelisted_hosts := []
      , zone_whitelist := fun _ => []
      , channels := []
      , video_to_channel_cache := []
      , approved_video_ids := []
      , redirect_tracker := [] }
      { full_hostname := "www.amazon.com", base_domain := "amazon.com"
      , url := { vParams := [], docidParams := [], path := "/"
               , raw := "https://www.amazon.com/" }
      , referer := { vParams := [], docidParams := [], path := "", raw := "" } }).2
      = .raised "AttributeError: 'BlockedZone' object has no attribute 'id'" :=
  (blocked_location_flow_raises (fun _ => none) _ _).1 ⟨⟨0, 0⟩, 100, "Z1"⟩ rfl rfl

/-- The pre-evaluation clear never introduces an absent id. -/
theorem not_mem_approved_after_clear (approved : List String)
    (cur : Option String) (id : String) (h : id ∉ approved) :
    id ∉ ProxyHandler.approved_after_new_video_clear approved cur := by
  unfold ProxyHandler.approved_after_new_video_clear
  cases cur with
  | none => exact h
  | some v =>
    show id ∉ (if v ≠ "" ∧ v ∉ approved then
      if approved ≠ [] then [] else approved else approved)
    by_cases hc : v ≠ "" ∧ v ∉ approved
    · rw [if_pos hc]
      by_cases he : approved = []
      · rw [if_neg (not_not_intro he)]
        exact h
      · rw [if_pos he]
        exact List.not_mem_nil id
    · rw [if_neg hc]
      exact h

/-- A watch-page step never introduces an id it does not carry. -/
theorem youtube_step_not_mem (api : String → Option String) (st : ProxyState)
    (rq : Request) (id : String) (h : id ∉ st.approved_video_ids)
    (hcv : currentVideoId rq.url ≠ some id) :
    id ∉ (ProxyHandler.youtube_step api st rq).1.approved_video_ids := by
  have h1 : id ∉ ProxyHandler.approved_after_new_video_clear st.approved_video_ids
      (currentVideoId rq.url) := not_mem_approved_after_clear _ _ _ h
  rw [ProxyHandler.youtube_step]
  by_cases hal : (CheckYouTubeAccess.execute st.channels st.video_to_channel_cache
      api rq.url).1.allowed = true
  · cases hc : currentVideoId rq.url with
    | none =>
      simp only [hc] at h1
      simp [hal, hc, h1]
    | some v =>
      have hvne : ¬ id = v := fun he => hcv (by rw [hc, he])
      simp only [hc] at h1
      by_cases hw : pyIn "whitelisted" (CheckYouTubeAccess.execute st.channels
          st.video_to_channel_cache api rq.url).1.message = true ∧ v ≠ ""
      · simp [hal, hc, hw, mem_setAdd, hvne, h1]
      · simp [hal, hc, hw, h1]
  · simp [hal]

/-- Extending `youtube_step_not_mem` along a trace of watch-page requests
that never carry the id. -/
theorem watchRun_not_mem (api : String → Option String) (id : String) :
    ∀ (ts : List Request) (st : ProxyState), id ∉ st.approved_video_ids →
      (∀ rq' ∈ ts, currentVideoId rq'.url ≠ some id) →
      id ∉ (ProxyHandler.watchRun api st ts).approved_video_ids := by
  intro ts
  induction ts with
  | nil => intro st h _; exact h
  | cons rq rqs ih =>
    intro st h hts
    rw [ProxyHandler.watchRun]
    exact ih _ (youtube_step_not_mem api st rq id h
        (hts rq (List.mem_cons_self rq rqs)))
      (fun rq' hrq' => hts rq' (List.mem_cons_of_mem rq hrq'))

/-- C6: on a watch-page request in the normal flow, a video id not in the
approved set clears the whole set before the evaluator runs; an allowed
evaluation whose message marks the channel whitelisted adds the id; a
denied evaluation clears the set; consequently, after a denied evaluation
an id stays out of the set along any continuation that never carries it —
the set never holds an id whose most recent evaluation was a denial. -/
theorem approved_video_set_discipline (api : String → Option String)
    (st : ProxyState) (rq : Request) :
    (∀ v, currentVideoId rq.url = some v → v ≠ "" → v ∉ st.approved_video_ids →
      ProxyHandler.approved_after_new_video_clear st.approved_video_ids
        (currentVideoId rq.url) = [])
  ∧ (∀ v, currentVideoId rq.url = some v → v ≠ "" →
      (CheckYouTubeAccess.execute st.channels st.video_to_channel_cache api
        rq.url).1.allowed = true →
      pyIn "whitelisted" (CheckYouTubeAccess.execute st.channels
        st.video_to_channel_cache api rq.url).1.message = true →
      v ∈ (ProxyHandler.youtube_step api st rq).1.approved_video_ids)
  ∧ ((CheckYouTubeAccess.execute st.channels st.video_to_channel_cache api
        rq.url).1.allowed = false →
      (ProxyHandler.youtube_step api st rq).1.approved_video_ids = [])
  ∧ ((CheckYouTubeAccess.execute st.channels st.video_to_channel_cache api
        rq.url).1.allowed = false →
      ∀ (ts : List Request) (id : String),
        (∀ rq' ∈ ts, currentVideoId rq'.url ≠ some id) →
        id ∉ (ProxyHandler.watchRun api
          (ProxyHandler.youtube_step api st rq).1 ts).approved_video_ids) := by
  have hdeny : (CheckYouTubeAccess.execute st.channels st.video_to_channel_cache api
        rq.url).1.allowed = false →
      (ProxyHandler.youtube_step api st rq).1.approved_video_ids = [] := by
    intro hal
    rw [ProxyHandler.youtube_step]
    simp [hal]
  refine ⟨?_, ?_, hdeny, ?_⟩
  · intro v hcv hne hnotmem
    unfold ProxyHandler.approved_after_new_video_clear
    rw [hcv]
    show (if v ≠ "" ∧ v ∉ st.approved_video_ids then
      if st.approved_video_ids ≠ [] then [] else st.approved_video_ids
      else st.approved_video_ids) = []
    rw [if_pos (show v ≠ "" ∧ v ∉ st.approved_video_ids from ⟨hne, hnotmem⟩)]
    by_cases he : st.approved_video_ids = []
    · rw [if_neg (not_not_intro he)]
      exact he
    · rw [if_pos he]
  · intro v hcv hne hal hw
    rw [ProxyHandler.youtube_step]
    simp only [hal, hcv]
    simp [hal, hcv, hw, hne, self_mem_setAdd]
  · intro hal ts id hts
    exact watchRun_not_mem api id ts _ (by rw [hdeny hal]; exact List.not_mem_nil id) hts

/-- Witness for `approved_video_set_discipline`: a denied watch-page
evaluation leaves a concretely empty approved set. -/
theorem approved_video_set_discipline_witness :
    (ProxyHandler.youtube_step (fun _ => none)
      { verify_is_blocked := false
      , verify_current_blocked_zone := none
      , domainRows := [{ domain := "youtube.com", enabled := true }]
      , auto_whitelisted_hosts := []
      , zone_whitelist := fun _ => []
      , channels := [⟨"UCabc", "c", true⟩]
      , video_to_channel_cache := []
      , approved_video_ids := ["v0"]
      , redirect_tracker := [] }
      { full_hostname := "www.youtube.com", base_domain := "youtube.com"
      , url := { vParams := ["v1"], docidParams := [], path := "/watch"
               , raw := "https://www.youtube.com/watch?v=v1" }
      , referer := { vParams := [], docidParams := [], path := "", raw := "" } }).1.approved_video_ids
      = [] :=
  (approved_video_set_discipline (fun _ => none) _ _).2.2.1 (by decide)
